import Mathlib

/-!
PS Move API: a shallow embedding of `psmove.c`.

The controller handle of `src/psmove.c` is embedded as a record holding the two
49-byte report buffers.  Every HID transport function (`hid_open`, `hid_read`,
`hid_write`, ...) is external to the file; its answer is a parameter of the
operation that calls it, and every call that the operation issues is recorded,
in order, in the `calls` component of the outcome of the operation.

C `int` arithmetic is modelled on `Int` with an explicit 32-bit wrap after every
arithmetic operation; `unsigned char` is `Fin 256`.
-/

namespace PSMoveAPI

/-! ## Machine integers -/

/-- An `unsigned char`. -/
abbrev Byte := Fin 256

/-- A C `int`: the 32-bit two-complement representative of an integer. -/
def int32 (x : Int) : Int := (x + 2147483648) % 4294967296 - 2147483648

/-- A C `unsigned int`: the 32-bit unsigned representative of an integer. -/
def uint32 (x : Int) : Nat := (x % 4294967296).toNat

/-- Integer promotion of an `unsigned char` operand to `int`. -/
def promote (b : Byte) : Int := (b.val : Int)

/-- C `a + b` on `int`. -/
def c_add (a b : Int) : Int := int32 (a + b)

/-- C `a - b` on `int`. -/
def c_sub (a b : Int) : Int := int32 (a - b)

/-- C `a / b` on `int`: the quotient is truncated towards zero. -/
def c_div (a b : Int) : Int := int32 (Int.tdiv a b)

/-- C `a << k` on `int`: the value `a * 2^k`. -/
def c_shl (a : Int) (k : Nat) : Int := int32 (a * 2 ^ k)

/-- C `a | b` on `int`. -/
def c_or (a b : Int) : Int := Int.lor a b

/-- C `a & b` on `int`. -/
def c_and (a b : Int) : Int := Int.land a b

/-! ## Private definitions of `psmove.c` -/

/-- Vendor ID of the PS Move controller. -/
def PSMOVE_VID : Nat := 0x054c

/-- Product ID of the PS Move controller. -/
def PSMOVE_PID : Nat := 0x03d5

/-- Buffer size for writing LEDs and reading sensor data. -/
abbrev PSMOVE_BUFFER_SIZE : Nat := 49

/-- Buffer size for calibration data. -/
abbrev PSMOVE_CALIBRATION_SIZE : Nat := 49

/-- Buffer size for the Bluetooth address get request. -/
abbrev PSMOVE_BTADDR_GET_SIZE : Nat := 16

/-- Buffer size for the Bluetooth address set request. -/
abbrev PSMOVE_BTADDR_SET_SIZE : Nat := 23

/-- Request type `PSMove_Req_GetInput`. -/
def PSMove_Req_GetInput : Byte := 0x01

/-- Request type `PSMove_Req_SetLEDs`. -/
def PSMove_Req_SetLEDs : Byte := 0x02

/-- Request type `PSMove_Req_GetBTAddr`. -/
def PSMove_Req_GetBTAddr : Byte := 0x04

/-- Request type `PSMove_Req_SetBTAddr`. -/
def PSMove_Req_SetBTAddr : Byte := 0x05

/-- Request type `PSMove_Req_GetCalibration`. -/
def PSMove_Req_GetCalibration : Byte := 0x10

/-- A buffer of `n` unsigned chars. -/
abbrev Buffer (n : Nat) := Fin n → Byte

/-- The bytes of a buffer in address order, as seen through an `unsigned char*`. -/
def Buffer.bytes {n : Nat} (buf : Buffer n) : List Byte := List.ofFn buf

/-- A buffer cleared by `calloc` or `memset(buf, 0, sizeof(buf))`. -/
def Buffer.zero (n : Nat) : Buffer n := fun _ => 0

/-- The fields of `PSMove_Data_LEDs` before `_padding`, in declaration order.
Every field is one `unsigned char`, so a field lies at the offset given by its
position in the declaration. -/
inductive LEDs_Field
  | type      -- message type, must be PSMove_Req_SetLEDs
  | _zero     -- must be zero
  | r         -- red value, 0x00..0xff
  | g         -- green value, 0x00..0xff
  | b         -- blue value, 0x00..0xff
  | rumble2   -- unknown, should be 0x00 for now
  | rumble    -- rumble value, 0x00..0xff
  deriving DecidableEq, Repr

/-- Byte offset of a field of `PSMove_Data_LEDs`; `_padding[PSMOVE_BUFFER_SIZE-7]`
occupies the offsets after the last field. -/
def LEDs_Field.offset (f : LEDs_Field) : Fin PSMOVE_BUFFER_SIZE :=
  ⟨f.toCtorIdx, by cases f <;> decide⟩

/-- The struct `PSMove_Data_LEDs`, as the 49 unsigned chars it occupies. -/
abbrev PSMove_Data_LEDs := Buffer PSMOVE_BUFFER_SIZE

/-- Read of a field: `leds.f`. -/
def PSMove_Data_LEDs.field (d : PSMove_Data_LEDs) (f : LEDs_Field) : Byte := d f.offset

/-- Assignment to a field: `leds.f = v`. -/
def PSMove_Data_LEDs.assign (d : PSMove_Data_LEDs) (f : LEDs_Field) (v : Byte) :
    PSMove_Data_LEDs :=
  Function.update d f.offset v

/-- The fields of `PSMove_Data_Input` before `_padding`, in declaration order.
Every field is one `unsigned char`, so a field lies at the offset given by its
position in the declaration. -/
inductive Input_Field
  | type      -- message type, must be PSMove_Req_GetInput
  | buttons1
  | buttons2
  | buttons3
  | buttons4
  | _unk5
  | trigger   -- trigger value; 0..255
  | _unk7
  | _unk8
  | _unk9
  | _unk10
  | _unk11
  | _unk12
  | aXlow     -- low byte of accelerometer X value
  | aXhigh    -- high byte of accelerometer X value
  | aYlow
  | aYhigh
  | aZlow
  | aZhigh
  | aXlow2    -- low byte of accelerometer X value, 2nd frame
  | aXhigh2   -- high byte of accelerometer X value, 2nd frame
  | aYlow2
  | aYhigh2
  | aZlow2
  | aZhigh2
  | gXlow     -- low byte of gyro X value
  | gXhigh    -- high byte of gyro X value
  | gYlow
  | gYhigh
  | gZlow
  | gZhigh
  | gXlow2    -- low byte of gyro X value, 2nd frame
  | gXhigh2   -- high byte of gyro X value, 2nd frame
  | gYlow2
  | gYhigh2
  | gZlow2
  | gZhigh2
  | mag38     -- magnetometer data, weirdly aligned (see code)
  | mag39
  | mag40
  | mag41
  | mag42
  deriving DecidableEq, Repr

/-- Byte offset of a field of `PSMove_Data_Input`; `_padding[PSMOVE_BUFFER_SIZE-42]`
occupies the offsets after the last field. -/
def Input_Field.offset (f : Input_Field) : Fin PSMOVE_BUFFER_SIZE :=
  ⟨f.toCtorIdx, by cases f <;> decide⟩

/-- The struct `PSMove_Data_Input`, as the 49 unsigned chars it occupies. -/
abbrev PSMove_Data_Input := Buffer PSMOVE_BUFFER_SIZE

/-- Read of a field: `input.f`. -/
def PSMove_Data_Input.field (d : PSMove_Data_Input) (f : Input_Field) : Byte := d f.offset

/-! ## The HID transport (hidapi), external to `psmove.c` -/

/-- A non-null `hid_device*`. -/
abbrev hid_device := Nat

/-- A call into hidapi, with the arguments `psmove.c` passes. -/
inductive HidCall
  | hid_open (vendor_id product_id : Nat)
  | hid_set_nonblocking (dev : hid_device) (nonblock : Int)
  | hid_get_feature_report (dev : hid_device) (data : List Byte)
  | hid_send_feature_report (dev : hid_device) (data : List Byte)
  | hid_get_serial_number_string (dev : hid_device) (maxlen : Nat)
  | hid_write (dev : hid_device) (data : List Byte)
  | hid_read (dev : hid_device) (length : Nat)
  | hid_close (dev : hid_device)
  deriving DecidableEq, Repr

/-- What one transfer into a caller-supplied buffer (`hid_read`,
`hid_get_feature_report`) did: it failed and left the buffer alone, or it
delivered a report (the empty report when there is no data). -/
inductive HidTransfer
  | error
  | report (data : List Byte)
  deriving DecidableEq, Repr

/-- Number of bytes copied into a buffer of `n` bytes: a report longer than the
buffer is cut to the buffer, an empty report is "no data". -/
def HidTransfer.count (t : HidTransfer) (n : Nat) : Nat :=
  match t with
  | .error => 0
  | .report data => min data.length n

/-- The `int` the transfer returns: -1 on error, else the number of bytes copied. -/
def HidTransfer.res (t : HidTransfer) (n : Nat) : Int :=
  match t with
  | .error => -1
  | .report data => (min data.length n : Nat)

/-- The buffer of the caller after the transfer: the delivered bytes overwrite the
front of the buffer, the bytes behind them keep their contents. -/
def HidTransfer.store {n : Nat} (t : HidTransfer) (buf : Buffer n) : Buffer n :=
  match t with
  | .error => buf
  | .report data => fun i => data.getD i.val (buf i)

/-! ## The controller handle -/

/-- The struct `_PSMove`. -/
structure PSMove where
  /-- The handle to the HIDAPI device. -/
  handle : hid_device
  leds : PSMove_Data_LEDs
  input : PSMove_Data_Input

/-- What a call of a `psmove_*` function does: the value it returns, the handle
its `move` argument points to afterwards (`none` for `NULL`), and the hidapi
calls it issued, in order. -/
structure Outcome (α : Type) where
  ret : α
  move : Option PSMove
  calls : List HidCall

/-- Function `psmove_connect` (psmove.c:125): `opened` is what
`hid_open(PSMOVE_VID, PSMOVE_PID, NULL)` returns.  The handle is allocated by
`calloc`, so both buffers start zeroed. -/
def psmove_connect (opened : Option hid_device) : Outcome Unit :=
  match opened with
  | none => ⟨(), none, [.hid_open PSMOVE_VID PSMOVE_PID]⟩
  | some dev =>
    let move : PSMove :=
      { handle := dev, leds := Buffer.zero PSMOVE_BUFFER_SIZE,
        input := Buffer.zero PSMOVE_BUFFER_SIZE }
    ⟨(), some { move with leds := move.leds.assign .type PSMove_Req_SetLEDs },
      [.hid_open PSMOVE_VID PSMOVE_PID, .hid_set_nonblocking dev 1]⟩

/-- Function `psmove_poll` (psmove.c:267): `rd` is what
`hid_read(move->handle, &move->input, sizeof(move->input))` does.  The read
writes straight into the cached input report.  The test `res == sizeof(...)`
compares the `int` with the `size_t` 49, which holds exactly when `res` is 49. -/
def psmove_poll (move : Option PSMove) (rd : HidTransfer) : Outcome Int :=
  match move with
  | none => ⟨0, none, []⟩
  | some m =>
    let res := rd.res PSMOVE_BUFFER_SIZE
    let m1 : PSMove := { m with input := rd.store m.input }
    let calls := [HidCall.hid_read m.handle PSMOVE_BUFFER_SIZE]
    if res = 49 then
      if ¬ (m1.input.field .type = PSMove_Req_GetInput) then
        ⟨0, some m1, calls⟩
      else
        ⟨c_add 1 (c_and (promote (m1.input.field .buttons4)) 0x0F), some m1, calls⟩
    else
      ⟨0, some m1, calls⟩

/-- Function `psmove_set_leds` (psmove.c:237). -/
def psmove_set_leds (move : Option PSMove) (r g b : Byte) : Outcome Unit :=
  match move with
  | none => ⟨(), none, []⟩
  | some m =>
    let m1 : PSMove := { m with leds := m.leds.assign .r r }
    let m2 : PSMove := { m1 with leds := m1.leds.assign .g g }
    let m3 : PSMove := { m2 with leds := m2.leds.assign .b b }
    ⟨(), some m3, []⟩

/-- Function `psmove_set_rumble` (psmove.c:247). -/
def psmove_set_rumble (move : Option PSMove) (rumble : Byte) : Outcome Unit :=
  match move with
  | none => ⟨(), none, []⟩
  | some m =>
    let m1 : PSMove := { m with leds := m.leds.assign .rumble2 0x00 }
    let m2 : PSMove := { m1 with leds := m1.leds.assign .rumble rumble }
    ⟨(), some m2, []⟩

/-- Function `psmove_update_leds` (psmove.c:255): `res` is what
`hid_write(move->handle, &move->leds, sizeof(move->leds))` returns. -/
def psmove_update_leds (move : Option PSMove) (res : Int) : Outcome Int :=
  match move with
  | none => ⟨0, none, []⟩
  | some m =>
    ⟨if res = 49 then 1 else 0, some m, [.hid_write m.handle (Buffer.bytes m.leds)]⟩

/-- Function `psmove_get_buttons` (psmove.c:304). -/
def psmove_get_buttons (move : Option PSMove) : Nat :=
  match move with
  | none => 0
  | some m =>
    uint32
      (c_or (c_or (c_or
        (promote (m.input.field .buttons2))
        (c_shl (promote (m.input.field .buttons1)) 8))
        (c_shl (c_and (promote (m.input.field .buttons3)) 0x01) 16))
        (c_shl (c_and (promote (m.input.field .buttons4)) 0xF0) 13))

/-- Function `psmove_get_trigger` (psmove.c:315). -/
def psmove_get_trigger (move : Option PSMove) : Byte :=
  match move with
  | none => 0
  | some m => m.input.field .trigger

/-- An `int*` argument: `none` is `NULL`, `some v` points to an `int` holding `v`. -/
abbrev IntPtr := Option Int

/-- The guarded store `if (p != NULL) { *p = v; }`. -/
def IntPtr.store (p : IntPtr) (v : Int) : IntPtr :=
  match p with
  | none => none
  | some _ => some v

/-- Function `psmove_get_accelerometer` (psmove.c:323): returns what `ax`, `ay`
and `az` point to afterwards. -/
def psmove_get_accelerometer (move : Option PSMove) (ax ay az : IntPtr) :
    IntPtr × IntPtr × IntPtr :=
  match move with
  | none => (ax, ay, az)
  | some m =>
    (ax.store
      (c_sub (c_div (c_add
        (c_add (promote (m.input.field .aXlow)) (promote (m.input.field .aXlow2)))
        (c_shl (c_add (promote (m.input.field .aXhigh)) (promote (m.input.field .aXhigh2))) 8))
        2) 0x8000),
     ay.store
      (c_sub (c_div (c_add
        (c_add (promote (m.input.field .aYlow)) (promote (m.input.field .aYlow2)))
        (c_shl (c_add (promote (m.input.field .aYhigh)) (promote (m.input.field .aYhigh2))) 8))
        2) 0x8000),
     az.store
      (c_sub (c_div (c_add
        (c_add (promote (m.input.field .aZlow)) (promote (m.input.field .aZlow2)))
        (c_shl (c_add (promote (m.input.field .aZhigh)) (promote (m.input.field .aZhigh2))) 8))
        2) 0x8000))

/-- Function `psmove_get_gyroscope` (psmove.c:344): returns what `gx`, `gy` and
`gz` point to afterwards. -/
def psmove_get_gyroscope (move : Option PSMove) (gx gy gz : IntPtr) :
    IntPtr × IntPtr × IntPtr :=
  match move with
  | none => (gx, gy, gz)
  | some m =>
    (gx.store
      (c_sub (c_div (c_add
        (c_add (promote (m.input.field .gXlow)) (promote (m.input.field .gXlow2)))
        (c_shl (c_add (promote (m.input.field .gXhigh)) (promote (m.input.field .gXhigh2))) 8))
        2) 0x8000),
     gy.store
      (c_sub (c_div (c_add
        (c_add (promote (m.input.field .gYlow)) (promote (m.input.field .gYlow2)))
        (c_shl (c_add (promote (m.input.field .gYhigh)) (promote (m.input.field .gYhigh2))) 8))
        2) 0x8000),
     gz.store
      (c_sub (c_div (c_add
        (c_add (promote (m.input.field .gZlow)) (promote (m.input.field .gZlow2)))
        (c_shl (c_add (promote (m.input.field .gZhigh)) (promote (m.input.field .gZhigh2))) 8))
        2) 0x8000))

/-- Function `psmove_get_magnetometer` (psmove.c:365): returns what `mx`, `my`
and `mz` point to afterwards.  In C `<<` binds tighter than `|`. -/
def psmove_get_magnetometer (move : Option PSMove) (mx my mz : IntPtr) :
    IntPtr × IntPtr × IntPtr :=
  match move with
  | none => (mx, my, mz)
  | some m =>
    (mx.store
      (c_or (c_shl (promote (m.input.field .mag38)) 0x0C)
            (c_shl (promote (m.input.field .mag39)) 0x04)),
     my.store
      (c_or (c_shl (promote (m.input.field .mag40)) 0x08)
            (c_and (promote (m.input.field .mag41)) 0xF0)),
     mz.store
      (c_or (c_shl (promote (m.input.field .mag41)) 0x0C)
            (c_shl (promote (m.input.field .mag42)) 0x0f)))

/-! ## Bluetooth address, connection type, disconnect -/

/-- Modelled from the spec: the type `PSMove_Data_BTAddr` is declared in
`psmove.h`, which is not part of the sources at hand; the specification gives a
Bluetooth address as a sequence of 6 bytes. -/
abbrev PSMove_Data_BTAddr := Buffer 6

/-- Modelled from the spec: the enum `PSMove_Connection_Type` is declared in
`psmove.h`; `psmove.c` uses its three constants, which the specification names
Bluetooth, USB and Unknown. -/
inductive PSMove_Connection_Type
  | Conn_Bluetooth
  | Conn_USB
  | Conn_Unknown
  deriving DecidableEq, Repr

/-- The call `memcpy(dst + off, src, k)` for a source of `k` bytes. -/
def memcpy_into {n k : Nat} (dst : Buffer n) (off : Nat) (src : Buffer k) : Buffer n :=
  fun i => if h : off ≤ i.val ∧ i.val < off + k then src ⟨i.val - off, by omega⟩ else dst i

/-- The `k` bytes a `memcpy(_, src + off, k)` reads, for `off + k` within `src`. -/
def memcpy_from {n : Nat} (src : Buffer n) (off k : Nat) (h : off + k ≤ n) : Buffer k :=
  fun j => src ⟨off + j.val, by omega⟩

/-- What a call of `psmove_get_btaddr` does: the outcome, and what `addr` points
to afterwards (`none` for `NULL`). -/
structure BTAddrOutcome where
  out : Outcome Int
  addr : Option PSMove_Data_BTAddr

/-- Function `psmove_get_btaddr` (psmove.c:146): `cal_rd` and `btg_rd` are what
the two calls of `hid_get_feature_report` do, on the local buffers `cal` and
`btg`; the second call is not reached when the first returns a negative value. -/
def psmove_get_btaddr (move : Option PSMove) (addr : Option PSMove_Data_BTAddr)
    (cal_rd btg_rd : HidTransfer) : BTAddrOutcome :=
  match move with
  | none => ⟨⟨0, none, []⟩, addr⟩
  | some m =>
    let cal : Buffer PSMOVE_CALIBRATION_SIZE :=
      Function.update (Buffer.zero PSMOVE_CALIBRATION_SIZE) 0 PSMove_Req_GetCalibration
    let call1 := HidCall.hid_get_feature_report m.handle (Buffer.bytes cal)
    let res := cal_rd.res PSMOVE_CALIBRATION_SIZE
    if res < 0 then
      ⟨⟨0, some m, [call1]⟩, addr⟩
    else
      let btg : Buffer PSMOVE_BTADDR_GET_SIZE :=
        Function.update (Buffer.zero PSMOVE_BTADDR_GET_SIZE) 0 PSMove_Req_GetBTAddr
      let call2 := HidCall.hid_get_feature_report m.handle (Buffer.bytes btg)
      let res := btg_rd.res PSMOVE_BTADDR_GET_SIZE
      let btg1 : Buffer PSMOVE_BTADDR_GET_SIZE := btg_rd.store btg
      if res = 16 then
        match addr with
        | none => ⟨⟨1, some m, [call1, call2]⟩, none⟩
        | some _ => ⟨⟨1, some m, [call1, call2]⟩, some (memcpy_from btg1 10 6 (by decide))⟩
      else
        ⟨⟨0, some m, [call1, call2]⟩, addr⟩

/-- Function `psmove_set_btaddr` (psmove.c:189): `res` is what
`hid_send_feature_report(move->handle, bts, sizeof(bts))` returns. -/
def psmove_set_btaddr (move : Option PSMove) (addr : Option PSMove_Data_BTAddr)
    (res : Int) : Outcome Int :=
  match move with
  | none => ⟨0, none, []⟩
  | some m =>
    match addr with
    | none => ⟨0, some m, []⟩
    | some a =>
      let bts : Buffer PSMOVE_BTADDR_SET_SIZE :=
        Function.update (Buffer.zero PSMOVE_BTADDR_SET_SIZE) 0 PSMove_Req_SetBTAddr
      let bts1 : Buffer PSMOVE_BTADDR_SET_SIZE := memcpy_into bts 1 a
      ⟨if res = 23 then 1 else 0, some m,
        [.hid_send_feature_report m.handle (Buffer.bytes bts1)]⟩

/-- Function `psmove_connection_type` (psmove.c:210): `res` is what
`hid_get_serial_number_string(move->handle, wstr, 255)` returns. -/
def psmove_connection_type (move : Option PSMove) (res : Int) :
    Outcome PSMove_Connection_Type :=
  match move with
  | none => ⟨.Conn_Unknown, none, []⟩
  | some m =>
    let calls := [HidCall.hid_get_serial_number_string m.handle 255]
    if res = 0 then
      ⟨.Conn_USB, some m, calls⟩
    else if res > 0 then
      ⟨.Conn_Bluetooth, some m, calls⟩
    else
      ⟨.Conn_Unknown, some m, calls⟩

/-- Function `psmove_disconnect` (psmove.c:383): the body is the `NULL` check and
`free(move)`; afterwards there is no handle, and no hidapi function was called. -/
def psmove_disconnect (move : Option PSMove) : Outcome Unit :=
  match move with
  | none => ⟨(), none, []⟩
  | some _ => ⟨(), none, []⟩

/-! ## Reading one IMU axis, and the formula the specification gives for it -/

/-- The six IMU axes. -/
inductive Axis
  | aX | aY | aZ | gX | gY | gZ
  deriving DecidableEq, Repr

/-- What `psmove_get_accelerometer` / `psmove_get_gyroscope` leaves in the
out-parameter of one axis, that parameter pointing to an `int` holding `init`
and the other two being `NULL`. -/
def Axis.read (a : Axis) (move : Option PSMove) (init : Int) : IntPtr :=
  match a with
  | .aX => (psmove_get_accelerometer move (some init) none none).1
  | .aY => (psmove_get_accelerometer move none (some init) none).2.1
  | .aZ => (psmove_get_accelerometer move none none (some init)).2.2
  | .gX => (psmove_get_gyroscope move (some init) none none).1
  | .gY => (psmove_get_gyroscope move none (some init) none).2.1
  | .gZ => (psmove_get_gyroscope move none none (some init)).2.2

/-- Specification, section 4.2: the byte offsets (low1, high1, low2, high2) of
an axis in the input report. -/
def Axis.spec_offsets : Axis → Fin 49 × Fin 49 × Fin 49 × Fin 49
  | .aX => (13, 14, 19, 20)
  | .aY => (15, 16, 21, 22)
  | .aZ => (17, 18, 23, 24)
  | .gX => (25, 26, 31, 32)
  | .gY => (27, 28, 33, 34)
  | .gZ => (29, 30, 35, 36)

/-- Specification, section 4.2: `floor((s1 + s2) / 2) - 0x8000` for the two
unsigned 16-bit samples `s1 = low1 + 256*high1` and `s2 = low2 + 256*high2`. -/
def spec_axis_mean (low1 high1 low2 high2 : Byte) : Int :=
  (((low1.val + 256 * high1.val + (low2.val + 256 * high2.val)) / 2 : Nat) : Int) - 0x8000

/-! ## Sequences of calls on one handle -/

/-- One call of an operation that works on the LED buffer or polls, together
with what the transport answers to it. -/
inductive Call
  | set_leds (r g b : Byte)
  | set_rumble (rumble : Byte)
  | update_leds (res : Int)
  | poll (rd : HidTransfer)

/-- The handle after one call. -/
def Call.run (c : Call) (move : Option PSMove) : Option PSMove :=
  match c with
  | .set_leds r g b => (psmove_set_leds move r g b).move
  | .set_rumble rumble => (psmove_set_rumble move rumble).move
  | .update_leds res => (psmove_update_leds move res).move
  | .poll rd => (psmove_poll move rd).move

/-- The handle after a sequence of calls, first call first. -/
def run_calls (cs : List Call) (move : Option PSMove) : Option PSMove :=
  cs.foldl (fun mv c => c.run mv) move

/-- Specification, sections 3 and 8: byte 0 of the LED buffer is 0x02 and its
unused bytes (offset 1, offset 5, offsets 7..48) are zero. -/
def leds_invariant (d : PSMove_Data_LEDs) : Prop :=
  d 0 = 0x02 ∧ d 1 = 0x00 ∧ d 5 = 0x00 ∧ ∀ i : Fin 49, 7 ≤ i.val → d i = 0x00

instance (d : PSMove_Data_LEDs) : Decidable (leds_invariant d) := by
  unfold leds_invariant
  infer_instance

/-! ## Concrete handles and transfers used in the examples -/

/-- The handle `psmove_connect` returns for device 0: request code set, all else zero. -/
def sample_handle : PSMove :=
  { handle := 0,
    leds := PSMove_Data_LEDs.assign (Buffer.zero PSMOVE_BUFFER_SIZE) .type PSMove_Req_SetLEDs,
    input := Buffer.zero PSMOVE_BUFFER_SIZE }

/-- A full 49-byte report whose byte 0 is 0x02 and whose other bytes are 0xFF. -/
def malformed_report : HidTransfer := .report (0x02 :: List.replicate 48 0xFF)

/-- A short read that delivers the three bytes 0x01, 0xFF, 0xFF. -/
def short_report : HidTransfer := .report [0x01, 0xFF, 0xFF]

/-- The 49-byte report with byte 0 = 0x01, buttons1..buttons4 = 0xA5, 0x5A, 0x01,
0x37 and zeros behind them. -/
def decode_report : HidTransfer :=
  .report ([0x01, 0xA5, 0x5A, 0x01, 0x37] ++ List.replicate 44 0)

/-- A handle whose cached input report holds 0xFF in every byte. -/
def saturated_handle : PSMove :=
  { sample_handle with input := fun _ => 0xFF }

/-- A handle whose cached input report is zero except for byte 37, which is 0x01. -/
def byte37_handle : PSMove :=
  { sample_handle with input := Function.update (Buffer.zero PSMOVE_BUFFER_SIZE) 37 0x01 }

/-- A handle whose cached input report is zero except for byte 42, which is 0x01. -/
def byte42_handle : PSMove :=
  { sample_handle with input := Function.update (Buffer.zero PSMOVE_BUFFER_SIZE) 42 0x01 }

/-- A handle whose LED buffer holds the colour 0x10, 0x20, 0x30 and the rumble 0x40. -/
def coloured_handle : PSMove :=
  { sample_handle with
    leds := PSMove_Data_LEDs.assign (PSMove_Data_LEDs.assign (PSMove_Data_LEDs.assign
      (PSMove_Data_LEDs.assign sample_handle.leds .r 0x10) .g 0x20) .b 0x30) .rumble 0x40 }

/-- A GetCalibration exchange that delivers only three bytes. -/
def short_calibration : HidTransfer := .report [0x10, 0x00, 0x00]

/-- A full 16-byte GetBTAddr reply with 0x11 .. 0x66 at offsets 10 .. 15. -/
def btaddr_reply : HidTransfer :=
  .report (0x04 :: List.replicate 9 0x00 ++ [0x11, 0x22, 0x33, 0x44, 0x55, 0x66])

/-- The address 0x11, 0x22, 0x33, 0x44, 0x55, 0x66. -/
def sample_addr : PSMove_Data_BTAddr := ![0x11, 0x22, 0x33, 0x44, 0x55, 0x66]

/-- A handle whose cached input report holds the accelerometer X samples
0x1234 (bytes 13, 14) and 0x5678 (bytes 19, 20) and zeros elsewhere. -/
def frame_handle : PSMove :=
  { sample_handle with
    input := Function.update (Function.update (Function.update (Function.update
      (Buffer.zero PSMOVE_BUFFER_SIZE) 13 0x34) 14 0x12) 19 0x78) 20 0x56 }

/-- The handle `frame_handle` with the two accelerometer X samples exchanged. -/
def frame_swapped_handle : PSMove :=
  { sample_handle with
    input := Function.update (Function.update (Function.update (Function.update
      (Buffer.zero PSMOVE_BUFFER_SIZE) 13 0x78) 14 0x56) 19 0x34) 20 0x12 }

/-- A handle whose cached input report is zero except for buttons4 = 0xF8. -/
def nibble_handle : PSMove :=
  { sample_handle with input := Function.update (Buffer.zero PSMOVE_BUFFER_SIZE) 4 0xF8 }

/-! ## Arithmetic facts about the machine-integer operations -/

theorem int32_of_range {x : Int} (h1 : -2147483648 ≤ x) (h2 : x < 2147483648) :
    int32 x = x := by
  unfold int32
  omega

theorem promote_nonneg (b : Byte) : 0 ≤ promote b := by
  unfold promote
  omega

theorem promote_lt (b : Byte) : promote b < 256 := by
  unfold promote
  omega

theorem c_and_promote (b : Byte) (k : Nat) :
    c_and (promote b) (k : Int) = ((b.val &&& k : Nat) : Int) := rfl

theorem seq_lt (b : Byte) : (b.val &&& 0x0F) < 16 :=
  Nat.lt_succ_of_le Nat.and_le_right

theorem c_add_one_seq (b : Byte) :
    c_add 1 (c_and (promote b) 0x0F) = 1 + ((b.val &&& 0x0F : Nat) : Int) := by
  have h := seq_lt b
  have e : c_and (promote b) 0x0F = ((b.val &&& 0x0F : Nat) : Int) := c_and_promote b 0x0F
  rw [e]
  unfold c_add
  apply int32_of_range <;> omega

theorem promote_eq (b : Byte) : promote b = ((b.val : Nat) : Int) := rfl

theorem c_or_cast (a b : Nat) : c_or (a : Int) (b : Int) = ((a ||| b : Nat) : Int) := rfl

theorem c_and_cast (a b : Nat) : c_and (a : Int) (b : Int) = ((a &&& b : Nat) : Int) := rfl

theorem c_shl_cast (x k : Nat) (h : x * 2 ^ k < 2147483648) :
    c_shl (x : Int) k = ((x <<< k : Nat) : Int) := by
  have e : (x : Int) * 2 ^ k = ((x * 2 ^ k : Nat) : Int) := by push_cast; rfl
  unfold c_shl
  rw [Nat.shiftLeft_eq, e]
  apply int32_of_range <;> omega

theorem uint32_cast (n : Nat) (h : n < 4294967296) : uint32 (n : Int) = n := by
  unfold uint32
  omega

theorem byte_shl_lt (x k : Nat) (hx : x < 256) (hk : k ≤ 15) : x * 2 ^ k < 8388608 := by
  have h1 : 2 ^ k ≤ 2 ^ 15 := Nat.pow_le_pow_right (by decide) hk
  have h2 : x * 2 ^ k ≤ 255 * 2 ^ 15 := Nat.mul_le_mul (by omega) h1
  omega

theorem byte_and_lt (b : Byte) (k : Nat) : (b.val &&& k) < 256 :=
  Nat.lt_of_le_of_lt Nat.and_le_left b.isLt

/-- The button mask without the machine-integer wrapping: no operation overflows. -/
theorem psmove_get_buttons_eq (m : PSMove) :
    psmove_get_buttons (some m) =
      (m.input 2).val ||| ((m.input 1).val <<< 8) ||| (((m.input 3).val &&& 0x01) <<< 16)
        ||| (((m.input 4).val &&& 0xF0) <<< 13) := by
  have h1 := byte_shl_lt (m.input 1).val 8 (m.input 1).isLt (by decide)
  have h4 := byte_shl_lt ((m.input 4).val &&& 0xF0) 13 (byte_and_lt _ _) (by decide)
  have h3' : ((m.input 3).val &&& 0x01) * 2 ^ 16 < 8388608 := by
    have : (m.input 3).val &&& 0x01 ≤ 1 := Nat.and_le_right
    omega
  have e2 : promote (PSMove_Data_Input.field m.input .buttons2) = (((m.input 2).val : Nat) : Int) := rfl
  have e1 : promote (PSMove_Data_Input.field m.input .buttons1) = (((m.input 1).val : Nat) : Int) := rfl
  have e3 : c_and (promote (PSMove_Data_Input.field m.input .buttons3)) 0x01
      = ((((m.input 3).val &&& 0x01 : Nat)) : Int) := rfl
  have e4 : c_and (promote (PSMove_Data_Input.field m.input .buttons4)) 0xF0
      = ((((m.input 4).val &&& 0xF0 : Nat)) : Int) := rfl
  unfold psmove_get_buttons
  dsimp only
  rw [e1, e2, e3, e4, c_shl_cast _ _ (by omega), c_shl_cast _ _ (by omega),
    c_shl_cast _ _ (by omega), c_or_cast, c_or_cast, c_or_cast]
  apply uint32_cast
  have b2 : (m.input 2).val < 2 ^ 32 := by have := (m.input 2).isLt; omega
  have b1 : (m.input 1).val <<< 8 < 2 ^ 32 := by rw [Nat.shiftLeft_eq]; omega
  have b3 : ((m.input 3).val &&& 0x01) <<< 16 < 2 ^ 32 := by rw [Nat.shiftLeft_eq]; omega
  have b4 : ((m.input 4).val &&& 0xF0) <<< 13 < 2 ^ 32 := by rw [Nat.shiftLeft_eq]; omega
  exact Nat.or_lt_two_pow (Nat.or_lt_two_pow (Nat.or_lt_two_pow b2 b1) b3) b4

/-! ## The transfer into a buffer -/

theorem res_eq_size_iff (rd : HidTransfer) :
    rd.res 49 = 49 ↔ ∃ data, rd = .report data ∧ 49 ≤ data.length := by
  cases rd with
  | error => simp [HidTransfer.res]
  | report data =>
    simp only [HidTransfer.res, HidTransfer.report.injEq, exists_eq_left']
    omega

theorem store_report {n : Nat} (data : List Byte) (buf : Buffer n) (i : Fin n) :
    (HidTransfer.report data).store buf i = data.getD i.val (buf i) := rfl

theorem store_delivered {n : Nat} (data : List Byte) (buf : Buffer n) (i : Fin n)
    (h : i.val < data.length) : (HidTransfer.report data).store buf i = data.getD i.val 0 := by
  rw [store_report, List.getD_eq_getElem _ _ h, List.getD_eq_getElem _ _ h]

theorem store_beyond {n : Nat} (data : List Byte) (buf : Buffer n) (i : Fin n)
    (h : data.length ≤ i.val) : (HidTransfer.report data).store buf i = buf i := by
  rw [store_report, List.getD_eq_default _ _ h]

/-! ## Unfolding `psmove_poll` -/

theorem psmove_poll_move (m : PSMove) (rd : HidTransfer) :
    (psmove_poll (some m) rd).move = some { m with input := rd.store m.input } := by
  unfold psmove_poll
  dsimp only
  split_ifs <;> rfl

theorem psmove_poll_ret_short (m : PSMove) (rd : HidTransfer) (h : ¬ rd.res 49 = 49) :
    (psmove_poll (some m) rd).ret = 0 := by
  unfold psmove_poll
  dsimp only
  rw [if_neg h]

theorem psmove_poll_ret_invalid (m : PSMove) (rd : HidTransfer) (h : rd.res 49 = 49)
    (hty : ¬ rd.store m.input 0 = 0x01) : (psmove_poll (some m) rd).ret = 0 := by
  unfold psmove_poll
  dsimp only
  rw [if_pos h]
  have hty1 : ¬ PSMove_Data_Input.field (rd.store m.input) .type = PSMove_Req_GetInput := hty
  rw [if_pos hty1]

theorem psmove_poll_ret_valid (m : PSMove) (rd : HidTransfer) (h : rd.res 49 = 49)
    (hty : rd.store m.input 0 = 0x01) :
    (psmove_poll (some m) rd).ret = 1 + ((((rd.store m.input 4).val &&& 0x0F : Nat)) : Int) := by
  unfold psmove_poll
  dsimp only
  rw [if_pos h]
  have hty1 : PSMove_Data_Input.field (rd.store m.input) .type = PSMove_Req_GetInput := hty
  rw [if_neg (not_not_intro hty1)]
  exact c_add_one_seq _

/-! ## C1: the result of `psmove_poll` -/

/-- C1. For every open handle and every outcome of the one non-blocking read,
`psmove_poll` returns `1 + (buttons4 & 0x0F)` when the read delivers a full
49-byte report whose byte 0 is 0x01, and 0 in every other case (error, no data,
short read, other first byte); so a result is 0 or lies in 1..16, and then the
result minus one is `byte 4 & 0x0F` of the input report stored in the handle
after the call. -/
theorem psmove_poll_result (m : PSMove) (rd : HidTransfer) :
    (psmove_poll (some m) rd).ret =
        (match rd with
         | .error => 0
         | .report data =>
           if 49 ≤ data.length ∧ data.getD 0 0 = 0x01 then
             1 + (((data.getD 4 0).val &&& 0x0F : Nat) : Int)
           else 0)
      ∧ ((psmove_poll (some m) rd).ret = 0 ∨
          (1 ≤ (psmove_poll (some m) rd).ret ∧ (psmove_poll (some m) rd).ret ≤ 16 ∧
            ∃ m1, (psmove_poll (some m) rd).move = some m1 ∧
              (psmove_poll (some m) rd).ret - 1 = (((m1.input 4).val &&& 0x0F : Nat) : Int))) := by
  cases rd with
  | error =>
    have hret := psmove_poll_ret_short m .error (by simp [HidTransfer.res])
    exact ⟨hret, Or.inl hret⟩
  | report data =>
    by_cases hlen : 49 ≤ data.length
    · have hres : (HidTransfer.report data).res 49 = 49 :=
        (res_eq_size_iff _).2 ⟨data, rfl, hlen⟩
      have h0 : (HidTransfer.report data).store m.input 0 = data.getD 0 0 :=
        store_delivered data m.input 0 (show 0 < data.length by omega)
      have h4 : (HidTransfer.report data).store m.input 4 = data.getD 4 0 :=
        store_delivered data m.input 4 (show 4 < data.length by omega)
      by_cases hty : data.getD 0 0 = 0x01
      · have hseq := seq_lt (data.getD 4 0)
        have hret := psmove_poll_ret_valid m _ hres (h0.trans hty)
        rw [h4] at hret
        refine ⟨?_, Or.inr ⟨?_, ?_, _, psmove_poll_move m _, ?_⟩⟩
        · rw [hret]
          exact (if_pos ⟨hlen, hty⟩).symm
        · rw [hret]; omega
        · rw [hret]; omega
        · rw [hret]
          show _ = ((((HidTransfer.report data).store m.input 4).val &&& 0x0F : Nat) : Int)
          rw [h4]
          omega
      · have hret := psmove_poll_ret_invalid m _ hres (fun h => hty (h0.symm.trans h))
        refine ⟨?_, Or.inl hret⟩
        rw [hret]
        exact (if_neg (fun h => hty h.2)).symm
    · have hres : ¬ (HidTransfer.report data).res 49 = 49 := by
        intro h
        obtain ⟨d, hd, hl⟩ := (res_eq_size_iff _).1 h
        cases hd
        exact hlen hl
      have hret := psmove_poll_ret_short m _ hres
      refine ⟨?_, Or.inl hret⟩
      rw [hret]
      exact (if_neg (fun h => hlen h.1)).symm

/-! ## C2: what a failed `psmove_poll` does to the cached input report -/

theorem store_count_zero (rd : HidTransfer) (buf : Buffer 49) (h : rd.count 49 = 0) :
    rd.store buf = buf := by
  cases rd with
  | error => rfl
  | report data =>
    have hl : data.length = 0 := by
      simp only [HidTransfer.count] at h
      omega
    have hd : data = [] := List.length_eq_zero.mp hl
    subst hd
    rfl

theorem store_beyond_count (rd : HidTransfer) (buf : Buffer 49) (i : Fin 49)
    (h : rd.count 49 ≤ i.val) : rd.store buf i = buf i := by
  cases rd with
  | error => rfl
  | report data =>
    apply store_beyond
    have hi := i.isLt
    simp only [HidTransfer.count] at h
    omega

/-- C2 (as stated, refuted). On the fresh handle, a 49-byte read whose byte 0 is
0x02 makes `psmove_poll` return 0 and yet replaces the cached input report: the
trigger was 0 and is 0xFF afterwards, the button mask was 0 and is 0x1FFFFF
afterwards.  A short read of three bytes also returns 0 and changes the mask. -/
theorem psmove_poll_failure_overwrites_input :
    (psmove_poll (some sample_handle) malformed_report).ret = 0
      ∧ psmove_get_trigger (some sample_handle) = 0
      ∧ psmove_get_trigger (psmove_poll (some sample_handle) malformed_report).move = 0xFF
      ∧ psmove_get_buttons (some sample_handle) = 0
      ∧ psmove_get_buttons (psmove_poll (some sample_handle) malformed_report).move = 0x1FFFFF
      ∧ (psmove_poll (some sample_handle) short_report).ret = 0
      ∧ psmove_get_buttons (psmove_poll (some sample_handle) short_report).move = 0xFFFF := by
  decide

/-- C2 (amended). Whenever `psmove_poll` returns 0, the handle keeps its
transport and LED buffer, every byte of the cached input report at an offset at
or behind the number of bytes the read delivered is the byte cached before the
call, the delivered bytes are the front of the cached report, and if the read
delivered nothing (transport error or no data) the handle is the one before the
call, so that every accessor returns the same values. -/
theorem psmove_poll_zero_frame (m : PSMove) (rd : HidTransfer)
    (_hret : (psmove_poll (some m) rd).ret = 0) :
    ∃ m1, (psmove_poll (some m) rd).move = some m1
      ∧ m1.handle = m.handle ∧ m1.leds = m.leds
      ∧ (∀ i : Fin 49, rd.count 49 ≤ i.val → m1.input i = m.input i)
      ∧ (∀ (data : List Byte) (i : Fin 49), rd = .report data → i.val < data.length →
          m1.input i = data.getD i.val 0)
      ∧ (rd.count 49 = 0 →
          m1 = m
          ∧ psmove_get_buttons (some m1) = psmove_get_buttons (some m)
          ∧ psmove_get_trigger (some m1) = psmove_get_trigger (some m)
          ∧ (∀ x y z, psmove_get_accelerometer (some m1) x y z
                = psmove_get_accelerometer (some m) x y z)
          ∧ (∀ x y z, psmove_get_gyroscope (some m1) x y z
                = psmove_get_gyroscope (some m) x y z)
          ∧ (∀ x y z, psmove_get_magnetometer (some m1) x y z
                = psmove_get_magnetometer (some m) x y z)) := by
  refine ⟨_, psmove_poll_move m rd, rfl, rfl, ?_, ?_, ?_⟩
  · intro i hi
    exact store_beyond_count rd m.input i hi
  · intro data i hrd hi
    subst hrd
    exact store_delivered data m.input i hi
  · intro h0
    have hm : ({ m with input := rd.store m.input } : PSMove) = m := by
      rw [store_count_zero rd m.input h0]
    rw [hm]
    exact ⟨rfl, rfl, rfl, fun _ _ _ => rfl, fun _ _ _ => rfl, fun _ _ _ => rfl⟩

/-- C2 (amended), at a short read of three bytes on the fresh handle: the poll
returns 0 and the bytes from offset 3 on are still zero, the trigger included. -/
theorem psmove_poll_zero_frame_witness :
    (psmove_poll (some sample_handle) short_report).ret = 0
      ∧ ∃ m1, (psmove_poll (some sample_handle) short_report).move = some m1
          ∧ (∀ i : Fin 49, 3 ≤ i.val → m1.input i = 0) := by
  have h0 : (psmove_poll (some sample_handle) short_report).ret = 0 := by decide
  obtain ⟨m1, hm, -, -, hfar, -, -⟩ := psmove_poll_zero_frame sample_handle short_report h0
  exact ⟨h0, m1, hm, fun i hi => hfar i hi⟩

/-! ## C3: decoding the literal input frame -/

/-- C3 (as stated, refuted). On the fresh handle the frame with byte 0 = 0x01
and buttons1..buttons4 = 0xA5, 0x5A, 0x01, 0x37 makes `psmove_poll` return 8,
but `psmove_get_buttons` then returns 0x7A55A and not 0x1A5A5A. -/
theorem psmove_get_buttons_decode_frame_not_1A5A5A :
    (psmove_poll (some sample_handle) decode_report).ret = 8
      ∧ psmove_get_buttons (psmove_poll (some sample_handle) decode_report).move = 0x7A55A
      ∧ psmove_get_buttons (psmove_poll (some sample_handle) decode_report).move ≠ 0x1A5A5A := by
  decide

/-- C3 (amended). Given any 49-byte input report with byte 0 = 0x01 and
buttons1..buttons4 = 0xA5, 0x5A, 0x01, 0x37 delivered to any open handle,
`psmove_poll` returns 8 and the subsequent `psmove_get_buttons` returns
0x5A | (0xA5 << 8) | (1 << 16) | (0x30 << 13) = 0x7A55A. -/
theorem psmove_decode_frame (m : PSMove) (rest : List Byte) (hrest : rest.length = 44) :
    (psmove_poll (some m) (.report (0x01 :: 0xA5 :: 0x5A :: 0x01 :: 0x37 :: rest))).ret = 8
      ∧ psmove_get_buttons
          (psmove_poll (some m) (.report (0x01 :: 0xA5 :: 0x5A :: 0x01 :: 0x37 :: rest))).move
        = 0x7A55A := by
  have hres : (HidTransfer.report (0x01 :: 0xA5 :: 0x5A :: 0x01 :: 0x37 :: rest)).res 49 = 49 :=
    (res_eq_size_iff _).2 ⟨_, rfl, by simp only [List.length_cons]; omega⟩
  have h1 : (HidTransfer.report (0x01 :: 0xA5 :: 0x5A :: 0x01 :: 0x37 :: rest)).store m.input 1
      = 0xA5 := rfl
  have h2 : (HidTransfer.report (0x01 :: 0xA5 :: 0x5A :: 0x01 :: 0x37 :: rest)).store m.input 2
      = 0x5A := rfl
  have h3 : (HidTransfer.report (0x01 :: 0xA5 :: 0x5A :: 0x01 :: 0x37 :: rest)).store m.input 3
      = 0x01 := rfl
  have h4 : (HidTransfer.report (0x01 :: 0xA5 :: 0x5A :: 0x01 :: 0x37 :: rest)).store m.input 4
      = 0x37 := rfl
  constructor
  · rw [psmove_poll_ret_valid m _ hres rfl, h4]
    decide
  · rw [psmove_poll_move, psmove_get_buttons_eq]
    dsimp only
    rw [h1, h2, h3, h4]
    decide

/-- C3 (amended), at the frame whose remaining 44 bytes are zero. -/
theorem psmove_decode_frame_witness :
    (List.replicate 44 (0 : Byte)).length = 44
      ∧ (psmove_poll (some sample_handle) decode_report).ret = 8
      ∧ psmove_get_buttons (psmove_poll (some sample_handle) decode_report).move = 0x7A55A :=
  ⟨by decide, psmove_decode_frame sample_handle (List.replicate 44 0) (by decide)⟩

/-! ## C4: the button mask and the trigger -/

/-- C4. For every stored input report, `psmove_get_buttons` returns
`byte2 | (byte1 << 8) | ((byte3 & 0x01) << 16) | ((byte4 & 0xF0) << 13)` for the
report bytes at offsets 1..4, which are the fields buttons1..buttons4, and
`psmove_get_trigger` returns the byte at offset 6, the field trigger. -/
theorem psmove_get_buttons_trigger (m : PSMove) :
    psmove_get_buttons (some m) =
        ((m.input 2).val ||| ((m.input 1).val <<< 8) ||| (((m.input 3).val &&& 0x01) <<< 16)
          ||| (((m.input 4).val &&& 0xF0) <<< 13))
      ∧ psmove_get_trigger (some m) = m.input 6
      ∧ m.input.field .buttons1 = m.input 1 ∧ m.input.field .buttons2 = m.input 2
      ∧ m.input.field .buttons3 = m.input 3 ∧ m.input.field .buttons4 = m.input 4
      ∧ m.input.field .trigger = m.input 6 :=
  ⟨psmove_get_buttons_eq m, rfl, rfl, rfl, rfl, rfl, rfl⟩

/-! ## C5, C6: the IMU axes -/

theorem c_add_cast (a b : Nat) (h : a + b < 2147483648) :
    c_add (a : Int) (b : Int) = ((a + b : Nat) : Int) := by
  unfold c_add
  rw [int32_of_range (by omega) (by omega)]
  push_cast
  rfl

theorem c_div_two_cast (a : Nat) (h : a < 2147483648) :
    c_div (a : Int) 2 = ((a / 2 : Nat) : Int) := by
  unfold c_div
  have e : Int.tdiv (a : Int) 2 = ((a / 2 : Nat) : Int) := by
    rw [Int.tdiv_eq_ediv (by omega) (by omega)]
    rfl
  rw [e]
  apply int32_of_range <;> omega

theorem c_sub_cast (a : Nat) (k : Int) (h : a < 2147483648) (hk0 : 0 ≤ k)
    (hk : k < 2147483648) : c_sub (a : Int) k = (a : Int) - k := by
  unfold c_sub
  apply int32_of_range <;> omega

/-- The high-byte sum shifted by 8, as `psmove.c` computes it: the product by 256,
below 2^17. -/
theorem high_sum_shl (high high2 : Byte) :
    c_shl (c_add (promote high) (promote high2)) 8
        = (((high.val + high2.val) * 256 : Nat) : Int)
      ∧ c_shl (c_add (promote high) (promote high2)) 8 < 131072 := by
  have h1 := high.isLt
  have h2 := high2.isLt
  have e : c_shl (c_add (promote high) (promote high2)) 8
      = (((high.val + high2.val) * 256 : Nat) : Int) := by
    rw [promote_eq, promote_eq, c_add_cast _ _ (by omega), c_shl_cast _ _ (by omega),
      Nat.shiftLeft_eq]
  refine ⟨e, ?_⟩
  rw [e]
  omega

/-- One axis expression of `psmove.c` equals the mean of the specification and
lies in the signed 16-bit range. -/
theorem axis_value (low high low2 high2 : Byte) :
    c_sub (c_div (c_add (c_add (promote low) (promote low2))
        (c_shl (c_add (promote high) (promote high2)) 8)) 2) 0x8000
      = spec_axis_mean low high low2 high2
    ∧ -32768 ≤ spec_axis_mean low high low2 high2
    ∧ spec_axis_mean low high low2 high2 ≤ 32767 := by
  have h1 := low.isLt
  have h2 := high.isLt
  have h3 := low2.isLt
  have h4 := high2.isLt
  refine ⟨?_, ?_, ?_⟩
  · rw [(high_sum_shl high high2).1, promote_eq, promote_eq, c_add_cast _ _ (by omega),
      c_add_cast _ _ (by omega), c_div_two_cast _ (by omega),
      c_sub_cast _ _ (by omega) (by omega) (by omega)]
    unfold spec_axis_mean
    omega
  · unfold spec_axis_mean
    omega
  · unfold spec_axis_mean
    omega

/-- C5. For every stored input report, each value `psmove_get_accelerometer` and
`psmove_get_gyroscope` write is `floor((s1 + s2) / 2) - 0x8000` for the two
16-bit samples `s1 = low1 + 256*high1`, `s2 = low2 + 256*high2` read at the
offsets aX: 13,14,19,20; aY: 15,16,21,22; aZ: 17,18,23,24; gX: 25,26,31,32;
gY: 27,28,33,34; gZ: 29,30,35,36 (a `NULL` out-parameter is left alone). -/
theorem psmove_get_imu_mean (m : PSMove) (x y z : IntPtr) :
    psmove_get_accelerometer (some m) x y z =
        (x.store (spec_axis_mean (m.input 13) (m.input 14) (m.input 19) (m.input 20)),
         y.store (spec_axis_mean (m.input 15) (m.input 16) (m.input 21) (m.input 22)),
         z.store (spec_axis_mean (m.input 17) (m.input 18) (m.input 23) (m.input 24)))
      ∧ psmove_get_gyroscope (some m) x y z =
        (x.store (spec_axis_mean (m.input 25) (m.input 26) (m.input 31) (m.input 32)),
         y.store (spec_axis_mean (m.input 27) (m.input 28) (m.input 33) (m.input 34)),
         z.store (spec_axis_mean (m.input 29) (m.input 30) (m.input 35) (m.input 36))) := by
  constructor
  · unfold psmove_get_accelerometer
    dsimp only
    rw [(axis_value _ _ _ _).1, (axis_value _ _ _ _).1, (axis_value _ _ _ _).1]
    rfl
  · unfold psmove_get_gyroscope
    dsimp only
    rw [(axis_value _ _ _ _).1, (axis_value _ _ _ _).1, (axis_value _ _ _ _).1]
    rfl

/-- The value read for one axis is the mean of the specification at the offsets
of that axis. -/
theorem Axis.read_eq (a : Axis) (m : PSMove) (init : Int) :
    a.read (some m) init =
      some (spec_axis_mean (m.input a.spec_offsets.1) (m.input a.spec_offsets.2.1)
        (m.input a.spec_offsets.2.2.1) (m.input a.spec_offsets.2.2.2)) := by
  cases a
  all_goals
    unfold Axis.read
    first
      | (simp only [psmove_get_accelerometer]
         rw [(axis_value _ _ _ _).1]
         rfl)
      | (simp only [psmove_get_gyroscope]
         rw [(axis_value _ _ _ _).1]
         rfl)

/-- C6. For every stored input report, the value read for each of the six axes
lies in -32768..32767; it is -0x8000 when the four bytes of the axis are 0x00
and 0x7FFF when they are 0xFF; and the intermediate `(high1 + high2) << 8` is
the exact product by 256, below 2^17, so nothing overflows a 32-bit `int`. -/
theorem psmove_get_imu_range (m : PSMove) (a : Axis) (init : Int) :
    (∃ v, a.read (some m) init = some v ∧ -32768 ≤ v ∧ v ≤ 32767
        ∧ (m.input a.spec_offsets.1 = 0x00 → m.input a.spec_offsets.2.1 = 0x00 →
            m.input a.spec_offsets.2.2.1 = 0x00 → m.input a.spec_offsets.2.2.2 = 0x00 →
            v = -0x8000)
        ∧ (m.input a.spec_offsets.1 = 0xFF → m.input a.spec_offsets.2.1 = 0xFF →
            m.input a.spec_offsets.2.2.1 = 0xFF → m.input a.spec_offsets.2.2.2 = 0xFF →
            v = 0x7FFF))
      ∧ c_shl (c_add (promote (m.input a.spec_offsets.2.1))
            (promote (m.input a.spec_offsets.2.2.2))) 8
          = ((((m.input a.spec_offsets.2.1).val + (m.input a.spec_offsets.2.2.2).val) * 256
              : Nat) : Int)
      ∧ c_shl (c_add (promote (m.input a.spec_offsets.2.1))
            (promote (m.input a.spec_offsets.2.2.2))) 8 < 2 ^ 17 := by
  refine ⟨⟨_, a.read_eq m init, (axis_value _ _ _ _).2.1, (axis_value _ _ _ _).2.2, ?_, ?_⟩,
    (high_sum_shl _ _).1, ?_⟩
  · intro h1 h2 h3 h4
    rw [h1, h2, h3, h4]
    decide
  · intro h1 h2 h3 h4
    rw [h1, h2, h3, h4]
    decide
  · have h := (high_sum_shl (m.input a.spec_offsets.2.1) (m.input a.spec_offsets.2.2.2)).2
    norm_num
    exact h

/-- C6, at the all-zero report of the fresh handle and at the all-0xFF report:
the accelerometer X axis reads exactly -0x8000 and 0x7FFF. -/
theorem psmove_get_imu_range_witness :
    Axis.aX.read (some sample_handle) 0 = some (-0x8000)
      ∧ Axis.aX.read (some saturated_handle) 0 = some 0x7FFF := by
  obtain ⟨v, hv, -, -, hzero, -⟩ := (psmove_get_imu_range sample_handle .aX 0).1
  obtain ⟨w, hw, -, -, -, hmax⟩ := (psmove_get_imu_range saturated_handle .aX 0).1
  rw [hv, hw, hzero rfl rfl rfl rfl, hmax rfl rfl rfl rfl]
  exact ⟨rfl, rfl⟩

/-! ## C7: the magnetometer -/

/-- The magnetometer fields lie one byte below the offsets their names carry:
the struct has no field for offset 37, so `mag38` .. `mag42` occupy offsets
37 .. 41 and offset 42 is the first padding byte. -/
theorem mag_field_offsets :
    Input_Field.gZhigh2.offset = 36 ∧ Input_Field.mag38.offset = 37
      ∧ Input_Field.mag39.offset = 38 ∧ Input_Field.mag40.offset = 39
      ∧ Input_Field.mag41.offset = 40 ∧ Input_Field.mag42.offset = 41 := by
  decide

/-- What `psmove_get_magnetometer` computes, without the machine-integer
wrapping, from the bytes it reads: those at offsets 37 .. 41. -/
theorem psmove_get_magnetometer_eq (m : PSMove) (x y z : IntPtr) :
    psmove_get_magnetometer (some m) x y z =
      (x.store ((((m.input 37).val <<< 12 ||| (m.input 38).val <<< 4 : Nat)) : Int),
       y.store ((((m.input 39).val <<< 8 ||| ((m.input 40).val &&& 0xF0) : Nat)) : Int),
       z.store ((((m.input 40).val <<< 12 ||| (m.input 41).val <<< 15 : Nat)) : Int)) := by
  have h37 := byte_shl_lt (m.input 37).val 12 (m.input 37).isLt (by decide)
  have h38 := byte_shl_lt (m.input 38).val 4 (m.input 38).isLt (by decide)
  have h39 := byte_shl_lt (m.input 39).val 8 (m.input 39).isLt (by decide)
  have h40 := byte_shl_lt (m.input 40).val 12 (m.input 40).isLt (by decide)
  have h41 := byte_shl_lt (m.input 41).val 15 (m.input 41).isLt (by decide)
  have e37 : promote (PSMove_Data_Input.field m.input .mag38) = (((m.input 37).val : Nat) : Int) := rfl
  have e38 : promote (PSMove_Data_Input.field m.input .mag39) = (((m.input 38).val : Nat) : Int) := rfl
  have e39 : promote (PSMove_Data_Input.field m.input .mag40) = (((m.input 39).val : Nat) : Int) := rfl
  have e40 : promote (PSMove_Data_Input.field m.input .mag41) = (((m.input 40).val : Nat) : Int) := rfl
  have e41 : promote (PSMove_Data_Input.field m.input .mag42) = (((m.input 41).val : Nat) : Int) := rfl
  have a40 : c_and (((m.input 40).val : Nat) : Int) 0xF0
      = ((((m.input 40).val &&& 0xF0 : Nat)) : Int) := rfl
  unfold psmove_get_magnetometer
  dsimp only
  rw [e37, e38, e39, e40, e41, a40, c_shl_cast _ 12 (by omega), c_shl_cast _ 4 (by omega),
    c_shl_cast _ 8 (by omega), c_shl_cast _ 12 (by omega), c_shl_cast _ 15 (by omega),
    c_or_cast, c_or_cast, c_or_cast]

/-- C7 (the code at the failing inputs). With only byte 37 of the cached report
set (to 0x01), bytes 38 .. 42 are zero and yet `psmove_get_magnetometer` writes
mx = 0x1000; with only byte 42 set (to 0x01) it writes (0, 0, 0), where the
formula over offsets 38 .. 42 gives mz = 0x01 << 15 = 0x8000. -/
theorem psmove_get_magnetometer_reads_37_to_41 :
    byte37_handle.input 38 = 0 ∧ byte37_handle.input 39 = 0 ∧ byte37_handle.input 40 = 0
      ∧ byte37_handle.input 41 = 0 ∧ byte37_handle.input 42 = 0
      ∧ psmove_get_magnetometer (some byte37_handle) (some 0) (some 0) (some 0)
          = (some 0x1000, some 0, some 0)
      ∧ byte42_handle.input 42 = 0x01
      ∧ psmove_get_magnetometer (some byte42_handle) (some 0) (some 0) (some 0)
          = (some 0, some 0, some 0) := by
  decide

/-! ## C8, C9, C10: the LED buffer -/

/-- The LED buffer after `psmove_set_leds`. -/
theorem psmove_set_leds_eq (m : PSMove) (r g b : Byte) :
    psmove_set_leds (some m) r g b =
      ⟨(), some { m with leds :=
          Function.update (Function.update (Function.update m.leds 2 r) 3 g) 4 b }, []⟩ := rfl

/-- The LED buffer after `psmove_set_rumble`. -/
theorem psmove_set_rumble_eq (m : PSMove) (v : Byte) :
    psmove_set_rumble (some m) v =
      ⟨(), some { m with leds := Function.update (Function.update m.leds 5 0x00) 6 v }, []⟩ :=
  rfl

/-- C8. For every r, g, b, v: on a handle fresh from a successful
`psmove_connect`, after `psmove_set_leds(r, g, b)` and `psmove_set_rumble(v)`,
`psmove_update_leds` issues exactly one transport call, a write of the 49 bytes
0x02, 0x00, r, g, b, 0x00, v and 42 zeros, and it returns 1 if the write
reports 49 bytes and 0 otherwise. -/
theorem psmove_update_leds_buffer (dev : hid_device) (r g b v : Byte) (res : Int) :
    (psmove_update_leds
        (psmove_set_rumble
          (psmove_set_leds (psmove_connect (some dev)).move r g b).move v).move res).calls
        = [.hid_write dev ([0x02, 0x00, r, g, b, 0x00, v] ++ List.replicate 42 0x00)]
      ∧ ((psmove_update_leds
          (psmove_set_rumble
            (psmove_set_leds (psmove_connect (some dev)).move r g b).move v).move res).ret
          = if res = 49 then 1 else 0)
      ∧ ((psmove_update_leds
          (psmove_set_rumble
            (psmove_set_leds (psmove_connect (some dev)).move r g b).move v).move res).ret ≠ 0
          ↔ res = 49) := by
  refine ⟨rfl, rfl, ?_⟩
  show (if res = 49 then (1 : Int) else 0) ≠ 0 ↔ res = 49
  split_ifs with h <;> simp [h]

/-- C8, at r, g, b, v = 0x10, 0x20, 0x30, 0x40 on device 0 with a complete write. -/
theorem psmove_update_leds_buffer_witness :
    (psmove_update_leds
        (psmove_set_rumble
          (psmove_set_leds (psmove_connect (some 0)).move 0x10 0x20 0x30).move 0x40).move 49).calls
        = [.hid_write 0 ([0x02, 0x00, 0x10, 0x20, 0x30, 0x00, 0x40] ++ List.replicate 42 0x00)]
      ∧ (psmove_update_leds
          (psmove_set_rumble
            (psmove_set_leds (psmove_connect (some 0)).move 0x10 0x20 0x30).move 0x40).move 49).ret
          = 1 :=
  ⟨(psmove_update_leds_buffer 0 0x10 0x20 0x30 0x40 49).1,
    (psmove_update_leds_buffer 0 0x10 0x20 0x30 0x40 49).2.1⟩

theorem update_self {n : Nat} (buf : Buffer n) (j : Fin n) (v : Byte) :
    Function.update buf j v j = v :=
  Function.update_same j v buf

theorem update_other {n : Nat} (buf : Buffer n) (j i : Fin n) (v : Byte)
    (h : i.val ≠ j.val) : Function.update buf j v i = buf i :=
  Function.update_noteq (fun e => h (congrArg Fin.val e)) v buf

theorem leds_invariant_connect (dev : hid_device) :
    ∃ m, (psmove_connect (some dev)).move = some m ∧ leds_invariant m.leds := by
  refine ⟨_, rfl, rfl, rfl, rfl, ?_⟩
  intro i hi
  exact update_other _ 0 i _ (by show i.val ≠ 0; omega)

theorem leds_invariant_set_leds (d : PSMove_Data_LEDs) (r g b : Byte) (h : leds_invariant d) :
    leds_invariant (Function.update (Function.update (Function.update d 2 r) 3 g) 4 b) := by
  obtain ⟨h0, h1, h5, h7⟩ := h
  have key : ∀ i : Fin 49, i.val ≠ 2 → i.val ≠ 3 → i.val ≠ 4 →
      Function.update (Function.update (Function.update d 2 r) 3 g) 4 b i = d i := by
    intro i i2 i3 i4
    rw [update_other _ 4 i b i4, update_other _ 3 i g i3, update_other _ 2 i r i2]
  refine ⟨?_, ?_, ?_, ?_⟩
  · rw [key 0 (by decide) (by decide) (by decide), h0]
  · rw [key 1 (by decide) (by decide) (by decide), h1]
  · rw [key 5 (by decide) (by decide) (by decide), h5]
  · intro i hi
    rw [key i (by omega) (by omega) (by omega), h7 i hi]

theorem leds_invariant_set_rumble (d : PSMove_Data_LEDs) (v : Byte) (h : leds_invariant d) :
    leds_invariant (Function.update (Function.update d 5 0x00) 6 v) := by
  obtain ⟨h0, h1, -, h7⟩ := h
  have key : ∀ i : Fin 49, i.val ≠ 5 → i.val ≠ 6 →
      Function.update (Function.update d 5 0x00) 6 v i = d i := by
    intro i i5 i6
    rw [update_other _ 6 i v i6, update_other _ 5 i _ i5]
  refine ⟨?_, ?_, ?_, ?_⟩
  · rw [key 0 (by decide) (by decide), h0]
  · rw [key 1 (by decide) (by decide), h1]
  · rw [update_other _ 6 5 v (by decide)]
    exact update_self d 5 0x00
  · intro i hi
    rw [key i (by omega) (by omega), h7 i hi]

theorem leds_invariant_run (c : Call) (m : PSMove) (h : leds_invariant m.leds) :
    ∃ m1, c.run (some m) = some m1 ∧ leds_invariant m1.leds := by
  cases c with
  | set_leds r g b => exact ⟨_, rfl, leds_invariant_set_leds m.leds r g b h⟩
  | set_rumble v => exact ⟨_, rfl, leds_invariant_set_rumble m.leds v h⟩
  | update_leds res => exact ⟨m, rfl, h⟩
  | poll rd => exact ⟨_, psmove_poll_move m rd, h⟩

theorem leds_invariant_run_calls (cs : List Call) (m : PSMove) (h : leds_invariant m.leds) :
    ∃ m1, run_calls cs (some m) = some m1 ∧ leds_invariant m1.leds := by
  induction cs generalizing m with
  | nil => exact ⟨m, rfl, h⟩
  | cons c cs ih =>
    obtain ⟨m1, hm1, hinv⟩ := leds_invariant_run c m h
    obtain ⟨m2, hm2, hinv2⟩ := ih m1 hinv
    refine ⟨m2, ?_, hinv2⟩
    show run_calls cs (c.run (some m)) = some m2
    rw [hm1, hm2]

/-- C9. In every handle state reached from a successful `psmove_connect` by a
finite sequence of `psmove_set_leds`, `psmove_set_rumble`, `psmove_update_leds`
and `psmove_poll` calls, with any arguments and any transport answers, the
cached LED buffer has byte 0 equal to 0x02 and its bytes at offset 1, offset 5
and offsets 7..48 equal to zero. -/
theorem leds_buffer_invariant (dev : hid_device) (cs : List Call) :
    ∃ m, run_calls cs (psmove_connect (some dev)).move = some m
      ∧ m.leds 0 = 0x02 ∧ m.leds 1 = 0x00 ∧ m.leds 5 = 0x00
      ∧ ∀ i : Fin 49, 7 ≤ i.val → m.leds i = 0x00 := by
  obtain ⟨m0, hm0, hinv0⟩ := leds_invariant_connect dev
  obtain ⟨m, hm, hinv⟩ := leds_invariant_run_calls cs m0 hinv0
  exact ⟨m, by rw [hm0, hm], hinv⟩

/-- C9, at the sequence set_leds, poll of a malformed frame, set_rumble, a failed
write, on device 0: byte 0 is 0x02 and byte 48 is zero. -/
theorem leds_buffer_invariant_witness :
    ∃ m, run_calls [.set_leds 0xFF 0xFF 0xFF, .poll malformed_report, .set_rumble 0xFF,
          .update_leds (-1)] (psmove_connect (some 0)).move = some m
      ∧ m.leds 0 = 0x02 ∧ m.leds 48 = 0x00 := by
  obtain ⟨m, hm, h0, -, -, h7⟩ := leds_buffer_invariant 0
    [.set_leds 0xFF 0xFF 0xFF, .poll malformed_report, .set_rumble 0xFF, .update_leds (-1)]
  exact ⟨m, hm, h0, h7 48 (by decide)⟩

/-- C10. `psmove_set_leds(r, g, b)` sets bytes 2..4 of the cached LED buffer to
r, g, b and `psmove_set_rumble(v)` sets byte 5 to 0x00 and byte 6 to v; each
leaves every other byte of the LED buffer, the cached input report and the
transport handle as they were, and issues no transport call. -/
theorem psmove_set_leds_rumble_frame (m : PSMove) (r g b v : Byte) :
    (∃ m1, psmove_set_leds (some m) r g b = ⟨(), some m1, []⟩
        ∧ m1.leds 2 = r ∧ m1.leds 3 = g ∧ m1.leds 4 = b
        ∧ (∀ i : Fin 49, i.val ≠ 2 → i.val ≠ 3 → i.val ≠ 4 → m1.leds i = m.leds i)
        ∧ m1.input = m.input ∧ m1.handle = m.handle)
      ∧ (∃ m2, psmove_set_rumble (some m) v = ⟨(), some m2, []⟩
        ∧ m2.leds 5 = 0x00 ∧ m2.leds 6 = v
        ∧ (∀ i : Fin 49, i.val ≠ 5 → i.val ≠ 6 → m2.leds i = m.leds i)
        ∧ m2.input = m.input ∧ m2.handle = m.handle) := by
  constructor
  · refine ⟨_, psmove_set_leds_eq m r g b, ?_, ?_, ?_, ?_, rfl, rfl⟩
    · show Function.update (Function.update (Function.update m.leds 2 r) 3 g) 4 b 2 = r
      rw [update_other _ 4 2 b (by decide), update_other _ 3 2 g (by decide)]
      exact update_self m.leds 2 r
    · show Function.update (Function.update (Function.update m.leds 2 r) 3 g) 4 b 3 = g
      rw [update_other _ 4 3 b (by decide)]
      exact update_self _ 3 g
    · show Function.update (Function.update (Function.update m.leds 2 r) 3 g) 4 b 4 = b
      exact update_self _ 4 b
    · intro i i2 i3 i4
      show Function.update (Function.update (Function.update m.leds 2 r) 3 g) 4 b i = m.leds i
      rw [update_other _ 4 i b i4, update_other _ 3 i g i3, update_other _ 2 i r i2]
  · refine ⟨_, psmove_set_rumble_eq m v, ?_, ?_, ?_, rfl, rfl⟩
    · show Function.update (Function.update m.leds 5 0x00) 6 v 5 = 0x00
      rw [update_other _ 6 5 v (by decide)]
      exact update_self m.leds 5 0x00
    · show Function.update (Function.update m.leds 5 0x00) 6 v 6 = v
      exact update_self _ 6 v
    · intro i i5 i6
      show Function.update (Function.update m.leds 5 0x00) 6 v i = m.leds i
      rw [update_other _ 6 i v i6, update_other _ 5 i _ i5]

/-- C10, on the handle that holds rumble 0x40 and colour 0x10, 0x20, 0x30: a new
colour leaves the rumble byte 0x40, and a new rumble leaves the colour bytes. -/
theorem psmove_set_leds_rumble_frame_witness :
    (∃ m1, psmove_set_leds (some coloured_handle) 0x01 0x02 0x03 = ⟨(), some m1, []⟩
        ∧ m1.leds 6 = 0x40)
      ∧ (∃ m2, psmove_set_rumble (some coloured_handle) 0x99 = ⟨(), some m2, []⟩
        ∧ m2.leds 2 = 0x10 ∧ m2.leds 3 = 0x20 ∧ m2.leds 4 = 0x30) := by
  obtain ⟨⟨m1, h1, -, -, -, hfr1, -, -⟩, ⟨m2, h2, -, -, hfr2, -, -⟩⟩ :=
    psmove_set_leds_rumble_frame coloured_handle 0x01 0x02 0x03 0x99
  refine ⟨⟨m1, h1, ?_⟩, ⟨m2, h2, ?_, ?_, ?_⟩⟩
  · rw [hfr1 6 (by decide) (by decide) (by decide)]
    rfl
  · rw [hfr2 2 (by decide) (by decide)]
    rfl
  · rw [hfr2 3 (by decide) (by decide)]
    rfl
  · rw [hfr2 4 (by decide) (by decide)]
    rfl

/-! ## C11: failure of `psmove_get_btaddr` -/

/-- C11 (as stated, refuted). A GetCalibration exchange that returns 3 bytes,
fewer than 49, followed by a full GetBTAddr reply: `psmove_get_btaddr` returns 1
and writes the address 0x11 .. 0x66 over the zero address of the caller. -/
theorem psmove_get_btaddr_short_calibration_succeeds :
    short_calibration.res 49 = 3
      ∧ (psmove_get_btaddr (some sample_handle) (some (Buffer.zero 6))
          short_calibration btaddr_reply).out.ret = 1
      ∧ (psmove_get_btaddr (some sample_handle) (some (Buffer.zero 6))
          short_calibration btaddr_reply).addr.map Buffer.bytes
          = some [0x11, 0x22, 0x33, 0x44, 0x55, 0x66] := by
  decide

theorem res_le_size (rd : HidTransfer) (n : Nat) : rd.res n ≤ n := by
  cases rd with
  | error =>
    show (-1 : Int) ≤ n
    omega
  | report data =>
    show ((min data.length n : Nat) : Int) ≤ n
    omega

/-- C11 (amended). `psmove_get_btaddr` returns 0 exactly when the GetCalibration
exchange returns a negative value or the GetBTAddr exchange returns fewer than
16 bytes (otherwise it returns 1), and in that case it leaves the address of the
caller unwritten. -/
theorem psmove_get_btaddr_failure (m : PSMove) (addr : Option PSMove_Data_BTAddr)
    (cal_rd btg_rd : HidTransfer) :
    ((psmove_get_btaddr (some m) addr cal_rd btg_rd).out.ret = 0
        ↔ (cal_rd.res 49 < 0 ∨ btg_rd.res 16 < 16))
      ∧ ((psmove_get_btaddr (some m) addr cal_rd btg_rd).out.ret = 0
          ∨ (psmove_get_btaddr (some m) addr cal_rd btg_rd).out.ret = 1)
      ∧ (cal_rd.res 49 < 0 ∨ btg_rd.res 16 < 16 →
          (psmove_get_btaddr (some m) addr cal_rd btg_rd).addr = addr) := by
  have hle := res_le_size btg_rd 16
  unfold psmove_get_btaddr
  dsimp only
  by_cases hc : cal_rd.res 49 < 0
  · rw [if_pos hc]
    exact ⟨⟨fun _ => Or.inl hc, fun _ => rfl⟩, Or.inl rfl, fun _ => rfl⟩
  · rw [if_neg hc]
    by_cases hb : btg_rd.res 16 = 16
    · rw [if_pos hb]
      have hno : ¬ (cal_rd.res 49 < 0 ∨ btg_rd.res 16 < 16) := by
        intro h
        rcases h with h | h
        · exact hc h
        · omega
      cases addr with
      | none =>
        exact ⟨⟨fun h => absurd h (show ¬ (1 : Int) = 0 by decide), fun h => absurd h hno⟩,
          Or.inr rfl, fun h => absurd h hno⟩
      | some a =>
        exact ⟨⟨fun h => absurd h (show ¬ (1 : Int) = 0 by decide), fun h => absurd h hno⟩,
          Or.inr rfl, fun h => absurd h hno⟩
    · rw [if_neg hb]
      have hlt : btg_rd.res 16 < 16 := by
        have : btg_rd.res 16 ≤ 16 := hle
        omega
      exact ⟨⟨fun _ => Or.inr hlt, fun _ => rfl⟩, Or.inl rfl, fun _ => rfl⟩

/-- C11 (amended), at a failed GetCalibration exchange and at a GetBTAddr
exchange of three bytes: the result is 0 and the address stays 0x11 .. 0x66. -/
theorem psmove_get_btaddr_failure_witness :
    (psmove_get_btaddr (some sample_handle) (some sample_addr) .error btaddr_reply).out.ret = 0
      ∧ (psmove_get_btaddr (some sample_handle) (some sample_addr) .error btaddr_reply).addr
          = some sample_addr
      ∧ (psmove_get_btaddr (some sample_handle) (some sample_addr) btaddr_reply
          short_calibration).out.ret = 0 :=
  ⟨(psmove_get_btaddr_failure sample_handle (some sample_addr) .error btaddr_reply).1.2
      (Or.inl (by decide)),
    (psmove_get_btaddr_failure sample_handle (some sample_addr) .error btaddr_reply).2.2
      (Or.inl (by decide)),
    (psmove_get_btaddr_failure sample_handle (some sample_addr) btaddr_reply
      short_calibration).1.2 (Or.inr (by decide))⟩

/-! ## C12: the buffer of `psmove_set_btaddr` -/

theorem psmove_set_btaddr_calls (m : PSMove) (a : PSMove_Data_BTAddr) (res : Int) :
    (psmove_set_btaddr (some m) (some a) res).calls
      = [.hid_send_feature_report m.handle
          ([0x05, a 0, a 1, a 2, a 3, a 4, a 5] ++ List.replicate 16 0x00)] := rfl

/-- C12. For every 6-byte address a, `psmove_set_btaddr` issues exactly one
transport call, a send-feature call with the 23 bytes 0x05, a[0..5] in order and
16 zeros; it returns 1 if that call returns 23 and 0 otherwise, and it leaves
the handle as it was. -/
theorem psmove_set_btaddr_buffer (m : PSMove) (a : PSMove_Data_BTAddr) (res : Int) :
    (psmove_set_btaddr (some m) (some a) res).calls
        = [.hid_send_feature_report m.handle
            ([0x05, a 0, a 1, a 2, a 3, a 4, a 5] ++ List.replicate 16 0x00)]
      ∧ ([0x05, a 0, a 1, a 2, a 3, a 4, a 5] ++ List.replicate 16 (0x00 : Byte)).length = 23
      ∧ (psmove_set_btaddr (some m) (some a) res).ret = (if res = 23 then 1 else 0)
      ∧ ((psmove_set_btaddr (some m) (some a) res).ret ≠ 0 ↔ res = 23)
      ∧ (psmove_set_btaddr (some m) (some a) res).move = some m := by
  refine ⟨rfl, rfl, rfl, ?_, rfl⟩
  show (if res = 23 then (1 : Int) else 0) ≠ 0 ↔ res = 23
  split_ifs with h <;> simp [h]

/-! ## C13: round trip of the Bluetooth address -/

theorem sent_addr_byte (a : PSMove_Data_BTAddr) (k : Fin 6) :
    ([0x05, a 0, a 1, a 2, a 3, a 4, a 5] ++ List.replicate 16 (0x00 : Byte)).getD (1 + k.val) 0
      = a k := by
  fin_cases k <;> rfl

/-- The outcome of `psmove_get_btaddr` when the GetCalibration exchange does not
fail and the GetBTAddr exchange fills the 16 bytes: success, and the address is
the bytes 10 .. 15 of the reply. -/
theorem psmove_get_btaddr_success (m : PSMove) (out : PSMove_Data_BTAddr)
    (cal_rd : HidTransfer) (reply : List Byte) (hcal : 0 ≤ cal_rd.res 49)
    (hlen : 16 ≤ reply.length) :
    (psmove_get_btaddr (some m) (some out) cal_rd (.report reply)).out.ret = 1
      ∧ (psmove_get_btaddr (some m) (some out) cal_rd (.report reply)).addr
          = some (fun k : Fin 6 => reply.getD (10 + k.val) 0) := by
  have hres : (HidTransfer.report reply).res 16 = 16 := by
    simp only [HidTransfer.res]
    omega
  unfold psmove_get_btaddr
  dsimp only
  rw [if_neg (show ¬ cal_rd.res 49 < 0 by omega), if_pos hres]
  refine ⟨rfl, ?_⟩
  dsimp only
  congr 1
  funext k
  have hk := k.isLt
  exact store_delivered reply _ ⟨10 + k.val, by show 10 + k.val < 16; omega⟩
    (by show 10 + k.val < reply.length; omega)

/-- C13. For every 6-byte address a: when the bytes 1..6 of the buffer that
`psmove_set_btaddr` sends are copied to positions 10..15 of a 16-byte GetBTAddr
reply, and the transport returns that reply in full after a GetCalibration
exchange that did not fail, `psmove_get_btaddr` returns 1 and writes exactly a,
in the same byte order, to the output address. -/
theorem btaddr_round_trip (m m1 : PSMove) (a out : PSMove_Data_BTAddr) (res : Int)
    (sent reply : List Byte) (cal_rd : HidTransfer)
    (hsent : (psmove_set_btaddr (some m) (some a) res).calls
      = [.hid_send_feature_report m.handle sent])
    (hlen : reply.length = 16)
    (hcopy : ∀ k : Fin 6, reply.getD (10 + k.val) 0 = sent.getD (1 + k.val) 0)
    (hcal : 0 ≤ cal_rd.res 49) :
    (psmove_get_btaddr (some m1) (some out) cal_rd (.report reply)).out.ret = 1
      ∧ (psmove_get_btaddr (some m1) (some out) cal_rd (.report reply)).addr = some a := by
  rw [psmove_set_btaddr_calls] at hsent
  have hs : sent = [0x05, a 0, a 1, a 2, a 3, a 4, a 5] ++ List.replicate 16 (0x00 : Byte) := by
    injection hsent with h1 _
    injection h1 with _ h2
    exact h2.symm
  obtain ⟨hret, haddr⟩ := psmove_get_btaddr_success m1 out cal_rd reply hcal (by omega)
  refine ⟨hret, ?_⟩
  rw [haddr]
  congr 1
  funext k
  rw [hcopy k, hs]
  exact sent_addr_byte a k

/-- C13, at the address 0x11 .. 0x66, with a GetCalibration exchange of three
bytes: the address read back is the address that was set. -/
theorem btaddr_round_trip_witness :
    (psmove_get_btaddr (some sample_handle) (some (Buffer.zero 6)) short_calibration
        btaddr_reply).out.ret = 1
      ∧ (psmove_get_btaddr (some sample_handle) (some (Buffer.zero 6)) short_calibration
        btaddr_reply).addr = some sample_addr :=
  btaddr_round_trip sample_handle sample_handle sample_addr (Buffer.zero 6) 23
    ([0x05, 0x11, 0x22, 0x33, 0x44, 0x55, 0x66] ++ List.replicate 16 0x00)
    (0x04 :: List.replicate 9 0x00 ++ [0x11, 0x22, 0x33, 0x44, 0x55, 0x66])
    short_calibration (by decide) rfl (by decide) (by decide)

/-! ## C14: the connection type -/

/-- C14. For every open handle and every result n of the serial-string query,
`psmove_connection_type` returns USB iff n = 0, Bluetooth iff n > 0 and Unknown
iff n < 0 (so 0 gives USB, 17 Bluetooth, -1 Unknown), after exactly one query;
on a null handle it returns Unknown without any query. -/
theorem psmove_connection_type_result (m : PSMove) (n : Int) :
    ((psmove_connection_type (some m) n).ret = .Conn_USB ↔ n = 0)
      ∧ ((psmove_connection_type (some m) n).ret = .Conn_Bluetooth ↔ n > 0)
      ∧ ((psmove_connection_type (some m) n).ret = .Conn_Unknown ↔ n < 0)
      ∧ (psmove_connection_type (some m) n).calls
          = [.hid_get_serial_number_string m.handle 255]
      ∧ (psmove_connection_type (some m) 0).ret = .Conn_USB
      ∧ (psmove_connection_type (some m) 17).ret = .Conn_Bluetooth
      ∧ (psmove_connection_type (some m) (-1)).ret = .Conn_Unknown
      ∧ (psmove_connection_type none n).ret = .Conn_Unknown
      ∧ (psmove_connection_type none n).calls = [] := by
  have hcalls : (psmove_connection_type (some m) n).calls
      = [.hid_get_serial_number_string m.handle 255] := by
    unfold psmove_connection_type
    dsimp only
    split_ifs <;> rfl
  refine ⟨?_, ?_, ?_, hcalls, rfl, rfl, rfl, rfl, rfl⟩
  · unfold psmove_connection_type
    dsimp only
    split_ifs with h0 h1 <;> simp [h0]
  · unfold psmove_connection_type
    dsimp only
    split_ifs with h0 h1
    · simp [h0]
    · simp [h1]
    · simp
      omega
  · unfold psmove_connection_type
    dsimp only
    split_ifs with h0 h1
    · simp [h0]
    · simp
      omega
    · simp
      omega

/-! ## C15: `psmove_disconnect` -/

/-- C15 (the code on an open handle). `psmove_disconnect` on the handle that
`psmove_connect` returned for device 0 issues no transport call at all, so the
calls of the whole life of the handle are the open and the non-blocking request
and no close; on a null handle it does nothing. -/
theorem psmove_disconnect_issues_no_close :
    (psmove_connect (some 0)).calls = [.hid_open 0x054c 0x03d5, .hid_set_nonblocking 0 1]
      ∧ (psmove_disconnect (psmove_connect (some 0)).move).calls = []
      ∧ (psmove_disconnect (psmove_connect (some 0)).move).move = none
      ∧ ((psmove_connect (some 0)).calls
            ++ (psmove_disconnect (psmove_connect (some 0)).move).calls).count (.hid_close 0) = 0
      ∧ (psmove_disconnect none).calls = []
      ∧ (psmove_disconnect none).move = none := by
  refine ⟨rfl, rfl, rfl, ?_, rfl, rfl⟩
  decide

/-! ## C16: `psmove_connect` -/

/-- C16. `psmove_connect` returns no handle iff the open for vendor 0x054C and
product 0x03D5 fails (and then issues no further call); when the open succeeds
it requests non-blocking mode on the device and returns a handle on it whose
LED buffer is 0x02 followed by 48 zero bytes and whose input buffer is 49 zero
bytes, so that `psmove_get_buttons` and `psmove_get_trigger` give 0 and a poll
without data (or with a transport error) returns 0. -/
theorem psmove_connect_result (opened : Option hid_device) (dev : hid_device) :
    ((psmove_connect opened).move = none ↔ opened = none)
      ∧ (psmove_connect none).calls = [.hid_open 0x054C 0x03D5]
      ∧ (psmove_connect (some dev)).calls
          = [.hid_open 0x054C 0x03D5, .hid_set_nonblocking dev 1]
      ∧ ∃ m, (psmove_connect (some dev)).move = some m
          ∧ m.handle = dev
          ∧ Buffer.bytes m.leds = 0x02 :: List.replicate 48 0x00
          ∧ Buffer.bytes m.input = List.replicate 49 0x00
          ∧ psmove_get_buttons (some m) = 0
          ∧ psmove_get_trigger (some m) = 0
          ∧ (psmove_poll (some m) (.report [])).ret = 0
          ∧ (psmove_poll (some m) .error).ret = 0 := by
  refine ⟨?_, rfl, rfl, _, rfl, rfl, ?_, ?_, ?_, ?_, ?_, ?_⟩
  · cases opened with
    | none => exact ⟨fun _ => rfl, fun _ => rfl⟩
    | some d =>
      constructor
      · intro h
        cases h
      · intro h
        cases h
  · rfl
  · exact List.ofFn_const 49 (0x00 : Byte)
  · rw [psmove_get_buttons_eq]
    show (0 ||| 0 <<< 8 ||| (0 &&& 0x01) <<< 16 ||| (0 &&& 0xF0) <<< 13 : Nat) = 0
    decide
  · rfl
  · rfl
  · rfl

/-! ## C17: symmetry in the two IMU sub-frames -/

theorem spec_axis_mean_swap (low1 high1 low2 high2 : Byte) :
    spec_axis_mean low2 high2 low1 high1 = spec_axis_mean low1 high1 low2 high2 := by
  unfold spec_axis_mean
  omega

/-- C17. For every two input reports that differ on an axis only in that the
first-frame bytes (low1, high1) and the second-frame bytes (low2, high2) are
exchanged, `psmove_get_accelerometer` / `psmove_get_gyroscope` give the same
integer for that axis. -/
theorem psmove_get_imu_swap (a : Axis) (m m1 : PSMove) (init : Int)
    (hlow1 : m1.input a.spec_offsets.1 = m.input a.spec_offsets.2.2.1)
    (hhigh1 : m1.input a.spec_offsets.2.1 = m.input a.spec_offsets.2.2.2)
    (hlow2 : m1.input a.spec_offsets.2.2.1 = m.input a.spec_offsets.1)
    (hhigh2 : m1.input a.spec_offsets.2.2.2 = m.input a.spec_offsets.2.1) :
    a.read (some m1) init = a.read (some m) init := by
  rw [a.read_eq m1 init, a.read_eq m init, hlow1, hhigh1, hlow2, hhigh2, spec_axis_mean_swap]

/-- C17, at the accelerometer X samples 0x1234 and 0x5678 in either order: both
reports give -19370. -/
theorem psmove_get_imu_swap_witness :
    Axis.aX.read (some frame_swapped_handle) 0 = Axis.aX.read (some frame_handle) 0
      ∧ Axis.aX.read (some frame_handle) 0 = some (-19370) :=
  ⟨psmove_get_imu_swap .aX frame_handle frame_swapped_handle 0 rfl rfl rfl rfl, by decide⟩

/-! ## C18, C20: the bit ranges of the button mask -/

set_option maxRecDepth 100000 in
theorem byte_high_nibble : ∀ b : Byte, (b.val &&& 0xF0) = 16 * (b.val / 16) := by
  decide

theorem or_eq_add_of_lt (i a b : Nat) (h : b < 2 ^ i) : b ||| a <<< i = 2 ^ i * a + b := by
  rw [Nat.or_comm, Nat.shiftLeft_eq, Nat.mul_comm a, Nat.mul_add_lt_is_or h]

/-- The button mask as a sum: the four components occupy the disjoint bit ranges
0..7, 8..15, 16 and 17..20. -/
theorem psmove_get_buttons_sum (m : PSMove) :
    psmove_get_buttons (some m) =
      (m.input 2).val + 256 * (m.input 1).val + 65536 * ((m.input 3).val % 2)
        + 131072 * ((m.input 4).val / 16) := by
  have h1 := (m.input 1).isLt
  have h2 := (m.input 2).isLt
  have h3 := (m.input 3).isLt
  have h4 := (m.input 4).isLt
  have e3 : (m.input 3).val &&& 0x01 = (m.input 3).val % 2 := Nat.and_one_is_mod _
  have e4 : (m.input 4).val &&& 0xF0 = 16 * ((m.input 4).val / 16) := byte_high_nibble _
  have s1 : (m.input 2).val ||| (m.input 1).val <<< 8 = 2 ^ 8 * (m.input 1).val + (m.input 2).val :=
    or_eq_add_of_lt 8 _ _ (by omega)
  have s2 : (2 ^ 8 * (m.input 1).val + (m.input 2).val) ||| ((m.input 3).val % 2) <<< 16
      = 2 ^ 16 * ((m.input 3).val % 2) + (2 ^ 8 * (m.input 1).val + (m.input 2).val) :=
    or_eq_add_of_lt 16 _ _ (by omega)
  have e5 : (16 * ((m.input 4).val / 16)) <<< 13 = ((m.input 4).val / 16) <<< 17 := by
    rw [Nat.shiftLeft_eq, Nat.shiftLeft_eq]
    omega
  have s3 : (2 ^ 16 * ((m.input 3).val % 2) + (2 ^ 8 * (m.input 1).val + (m.input 2).val))
        ||| ((m.input 4).val / 16) <<< 17
      = 2 ^ 17 * ((m.input 4).val / 16)
        + (2 ^ 16 * ((m.input 3).val % 2) + (2 ^ 8 * (m.input 1).val + (m.input 2).val)) :=
    or_eq_add_of_lt 17 _ _ (by omega)
  rw [psmove_get_buttons_eq, e3, e4, s1, s2, e5, s3]
  omega

/-- C18. For every stored input report, bits 17..23 of the mask, read as the
7-bit number `(mask >> 17) & 0x7F`, are exactly `buttons4 >> 4`; and when
buttons4 has low nibble 0x8 and high nibble 0xF, the mask is the other three
components or-ed with `0x0F << 17 = 0x1E0000`. -/
theorem psmove_get_buttons_high_bits (m : PSMove) :
    (psmove_get_buttons (some m) >>> 17) &&& 0x7F = (m.input 4).val >>> 4
      ∧ ((m.input 4).val &&& 0x0F = 0x08 → (m.input 4).val >>> 4 = 0x0F →
          psmove_get_buttons (some m)
              = ((m.input 2).val ||| ((m.input 1).val <<< 8)
                  ||| (((m.input 3).val &&& 0x01) <<< 16)) ||| 0x1E0000
            ∧ (0x0F : Nat) <<< 17 = 0x1E0000) := by
  have h4 := (m.input 4).isLt
  have h2 := (m.input 2).isLt
  have h1 := (m.input 1).isLt
  constructor
  · have e : (psmove_get_buttons (some m) >>> 17) &&& (2 ^ 7 - 1)
        = (psmove_get_buttons (some m) >>> 17) % 2 ^ 7 := Nat.and_pow_two_sub_one_eq_mod _ 7
    show (psmove_get_buttons (some m) >>> 17) &&& (2 ^ 7 - 1) = (m.input 4).val >>> 4
    rw [e, Nat.shiftRight_eq_div_pow, Nat.shiftRight_eq_div_pow, psmove_get_buttons_sum]
    omega
  · intro _ hhigh
    have hb : (m.input 4).val / 16 = 15 := by
      rw [Nat.shiftRight_eq_div_pow] at hhigh
      exact hhigh
    have e4 : (m.input 4).val &&& 0xF0 = 0xF0 := by
      rw [byte_high_nibble, hb]
    rw [psmove_get_buttons_eq, e4]
    exact ⟨rfl, rfl⟩

/-- C18, at buttons4 = 0xF8 with all other bytes zero: the mask is 0x1E0000 and
its bits 17..23 read 0x0F. -/
theorem psmove_get_buttons_high_bits_witness :
    psmove_get_buttons (some nibble_handle) = 0x1E0000
      ∧ (psmove_get_buttons (some nibble_handle) >>> 17) &&& 0x7F = 0x0F := by
  obtain ⟨hbits, hcontrib⟩ := psmove_get_buttons_high_bits nibble_handle
  obtain ⟨hmask, -⟩ := hcontrib (by decide) (by decide)
  exact ⟨hmask.trans (by decide), hbits.trans (by decide)⟩

/-! ## C19: the range of the magnetometer values -/

/-- C19 (as stated, refuted). On the input report that holds 0xFF in every byte,
`psmove_get_magnetometer` writes mx = 0xFFFF0, my = 0xFFF0 and mz = 0x7FF000,
each of them above 4095. -/
theorem psmove_get_magnetometer_exceeds_12_bits :
    psmove_get_magnetometer (some saturated_handle) (some 0) (some 0) (some 0)
        = (some 0xFFFF0, some 0xFFF0, some 0x7FF000)
      ∧ (4095 : Int) < 0xFFFF0 ∧ (4095 : Int) < 0xFFF0 ∧ (4095 : Int) < 0x7FF000 := by
  decide

theorem shl_lt_two_pow (x k n : Nat) (hx : x < 256) (hn : k + 8 ≤ n) : x <<< k < 2 ^ n := by
  rw [Nat.shiftLeft_eq]
  have h1 : x * 2 ^ k < 2 ^ 8 * 2 ^ k := Nat.mul_lt_mul_of_pos_right hx (Nat.two_pow_pos k)
  have h2 : 2 ^ 8 * 2 ^ k = 2 ^ (8 + k) := (Nat.pow_add 2 8 k).symm
  have h3 : 2 ^ (8 + k) ≤ 2 ^ n := Nat.pow_le_pow_right (by decide) (by omega)
  omega

/-- C19 (amended). For every stored input report the three values
`psmove_get_magnetometer` writes are non-negative, with mx below 2^20, my below
2^16 and mz below 2^23. -/
theorem psmove_get_magnetometer_range (m : PSMove) (x y z : Int) :
    ∃ mx my mz : Int,
      psmove_get_magnetometer (some m) (some x) (some y) (some z) = (some mx, some my, some mz)
        ∧ 0 ≤ mx ∧ mx < 2 ^ 20 ∧ 0 ≤ my ∧ my < 2 ^ 16 ∧ 0 ≤ mz ∧ mz < 2 ^ 23 := by
  have h37 := (m.input 37).isLt
  have h38 := (m.input 38).isLt
  have h39 := (m.input 39).isLt
  have h40 := (m.input 40).isLt
  have h41 := (m.input 41).isLt
  have bx : (m.input 37).val <<< 12 ||| (m.input 38).val <<< 4 < 2 ^ 20 :=
    Nat.or_lt_two_pow (shl_lt_two_pow _ 12 20 h37 (by decide))
      (shl_lt_two_pow _ 4 20 h38 (by decide))
  have byy : (m.input 39).val <<< 8 ||| ((m.input 40).val &&& 0xF0) < 2 ^ 16 :=
    Nat.or_lt_two_pow (shl_lt_two_pow _ 8 16 h39 (by decide))
      (Nat.lt_of_le_of_lt Nat.and_le_left (by omega))
  have bz : (m.input 40).val <<< 12 ||| (m.input 41).val <<< 15 < 2 ^ 23 :=
    Nat.or_lt_two_pow (shl_lt_two_pow _ 12 23 h40 (by decide))
      (shl_lt_two_pow _ 15 23 h41 (by decide))
  refine ⟨_, _, _, psmove_get_magnetometer_eq m (some x) (some y) (some z), ?_, ?_, ?_, ?_, ?_, ?_⟩
  · exact Int.ofNat_nonneg _
  · exact_mod_cast bx
  · exact Int.ofNat_nonneg _
  · exact_mod_cast byy
  · exact Int.ofNat_nonneg _
  · exact_mod_cast bz

/-! ## C20: the button mask is a lossless packing of the button bits -/

/-- C20. For any two stored input reports, `psmove_get_buttons` returns equal
masks if and only if the reports agree on buttons1, buttons2, bit 0 of buttons3
and the high nibble of buttons4; the mask is the sum of the four components in
the disjoint bit ranges 0..7, 8..15, 16 and 17..20, so it does not depend on the
low 4 bits of buttons4 or on bits 1..7 of buttons3. -/
theorem psmove_get_buttons_lossless (m m1 : PSMove) :
    (psmove_get_buttons (some m) = psmove_get_buttons (some m1) ↔
        (m.input 1 = m1.input 1 ∧ m.input 2 = m1.input 2
          ∧ (m.input 3).val &&& 0x01 = (m1.input 3).val &&& 0x01
          ∧ (m.input 4).val &&& 0xF0 = (m1.input 4).val &&& 0xF0))
      ∧ psmove_get_buttons (some m)
          = (m.input 2).val + 2 ^ 8 * (m.input 1).val + 2 ^ 16 * ((m.input 3).val &&& 0x01)
              + 2 ^ 13 * ((m.input 4).val &&& 0xF0)
      ∧ (m.input 2).val < 2 ^ 8 ∧ (m.input 1).val < 2 ^ 8
      ∧ (m.input 3).val &&& 0x01 < 2 ∧ (m.input 4).val &&& 0xF0 < 2 ^ 8
      ∧ 2 ^ 4 ∣ (m.input 4).val &&& 0xF0 := by
  have h1 := (m.input 1).isLt
  have h2 := (m.input 2).isLt
  have h4 := (m.input 4).isLt
  have k1 := (m1.input 1).isLt
  have k2 := (m1.input 2).isLt
  have k4 := (m1.input 4).isLt
  have e3 : (m.input 3).val &&& 0x01 = (m.input 3).val % 2 := Nat.and_one_is_mod _
  have f3 : (m1.input 3).val &&& 0x01 = (m1.input 3).val % 2 := Nat.and_one_is_mod _
  have e4 : (m.input 4).val &&& 0xF0 = 16 * ((m.input 4).val / 16) := byte_high_nibble _
  have f4 : (m1.input 4).val &&& 0xF0 = 16 * ((m1.input 4).val / 16) := byte_high_nibble _
  refine ⟨?_, ?_, by omega, by omega, by omega, by omega, ?_⟩
  · rw [psmove_get_buttons_sum, psmove_get_buttons_sum, e3, f3, e4, f4, Fin.ext_iff, Fin.ext_iff]
    omega
  · rw [psmove_get_buttons_sum, e3, e4]
    omega
  · rw [e4]
    exact ⟨_, rfl⟩

end PSMoveAPI
